import Mathlib

/-!
# Verification of the nora geometry and text-layout core

Shallow embedding of `geometry.go` (the `Geometry` container, its `Set` /
`Append` operations and `AssertValidGeometry`) and of
`builtin/shapes/text.go` (the `Text` component and its `update` layout pass).

Modelling conventions:
* Go `float32` values are modelled as exact rationals (`ℚ`); every value the
  claims touch is exactly representable.
* Go `uint16` index values are modelled as `Nat` with explicit `% 65536`
  where the source converts or adds machine integers.
* The `assert` package (repository code outside the embedded sources) is
  modelled from the spec: a failed assertion aborts the operation at that
  point, before any further statement runs, and the error is surfaced to the
  caller.  Go runtime panics (index / slice bounds) are modelled the same
  way.  Each operation therefore returns the resulting container together
  with `Option String`: `none` on success, `some msg` at the first failure,
  and the returned container is whatever the receiver held at that moment.
-/

set_option autoImplicit false

/-- Primitive types used by the source (the `gl` constants that
`geometry.go` mentions). -/
inductive PrimitiveType where
  | POINTS
  | LINES
  | LINE_STRIP
  | LINE_LOOP
  | TRIANGLES
  | TRIANGLE_STRIP
  | TRIANGLE_FAN
deriving DecidableEq, Repr

/-- Buffer layouts.  The source only names `InterleavedBuffer`; the spec
describes the enum as Interleaved vs Separate(-per-attribute). -/
inductive BufferLayout where
  | InterleavedBuffer
  | SeparateBuffer
deriving DecidableEq, Repr

/-- The `Geometry` container of `geometry.go`.  `indices = none` models a
nil Go slice (non-indexed drawing); `some l` models a present slice. -/
structure Geometry where
  vertexCount : Nat
  vertices : List ℚ
  indices : Option (List Nat)
  primitiveType : PrimitiveType
  vertexAttributes : List String
  bufferLayout : BufferLayout
deriving DecidableEq, Repr

/-- `equalStringSlice` from `geometry.go`. -/
def equalStringSlice (a b : List String) : Bool :=
  if a.length ≠ b.length then false
  else (List.zip a b).all fun p => p.1 == p.2

/-- The `switch primitiveType` block at the end of `AssertValidGeometry`:
which effective index counts each primitive type accepts.  (The `default`
branch of the source rejects unknown numeric enum values; the seven listed
constants are the whole modelled type.) -/
def primitiveTypeCheck (primitiveType : PrimitiveType) (effectiveIndexCount : Nat) :
    Option String :=
  match primitiveType with
  | .POINTS => none
  | .LINE_STRIP =>
      if effectiveIndexCount ≥ 1 then none
      else some "Index count is incompatible with primitive type LINE_STRIP"
  | .LINE_LOOP => none
  | .LINES =>
      if effectiveIndexCount % 2 = 0 then none
      else some "Index count is incompatible with primitive type LINES"
  | .TRIANGLE_STRIP =>
      if effectiveIndexCount ≥ 2 then none
      else some "Index count is incompatible with primitive type TRIANGLE_STRIP"
  | .TRIANGLE_FAN =>
      if effectiveIndexCount ≥ 2 then none
      else some "Index count is incompatible with primitive type TRIANGLE_FAN"
  | .TRIANGLES =>
      if effectiveIndexCount % 3 = 0 then none
      else some "Index count is incompatible with primitive type TRIANGLES"

/-- `AssertValidGeometry` from `geometry.go`, with the shader-program phase
skipped (every call in the embedded sources passes an empty key, so the
source returns right after the primitive-type switch).  The float32
equality `float32(len(vertices))/float32(vertexCount) == float32(vertexSize)`
tests that the division is exact; it is modelled as exact divisibility.
The source scans the index array once (inside `assert.Func`) computing
`minIdx`/`maxIdx` with initial values `vertexCount` and `-1`; the folds
below compute the same values for the nonempty arrays these checks guard
(`max` over naturals with initial 0, and the `obsolete := vertexCount-1-
maxIdx <= 0` test spelled as `maxIdx + 1 < vertexCount` for the failure).
Checks appear in source order; the first failing one is reported. -/
def assertValidGeometry (vertexCount : Nat) (vertices : List ℚ)
    (indices : Option (List Nat)) (primitiveType : PrimitiveType)
    (vertexAttributes : List String) : Option String :=
  if vertexCount > 0 ∧ vertices.length % vertexCount ≠ 0 then
    some "VertexCount and vertex data does not match"
  else if vertexCount = 0 ∧ vertices.length ≠ 0 then
    some "VertexCount and vertex data does not match. Should there be vertices?"
  else if vertexCount > 0 ∧ vertexAttributes.length = 0 then
    some "There are no vertex attributes"
  else if vertexCount > 0 ∧ vertices.length / vertexCount < vertexAttributes.length then
    some "Vertex size is too small to fit all vertex attributes"
  else if (indices.getD []).length > 0 ∧ vertexCount > 65535 then
    some "Too many vertices to be indexed by uint16"
  else if (indices.getD []).length > 0 ∧ ¬ (indices.getD []).all (· < vertexCount) then
    some "Index array references out-of-bounds vertices"
  else if (indices.getD []).length > 0 ∧ ((indices.getD []).foldl max 0) + 1 < vertexCount then
    some "Obsolete vertices: the last vertices are not referenced"
  else if (indices.getD []).length > 0 ∧ (indices.getD []).foldl min vertexCount ≠ 0 then
    some "Obsolete vertices: the first vertices are not referenced"
  else if (indices.getD []).length > 0 ∧ (indices.getD []).length < vertexCount then
    some "Obsolete vertices: not all vertices are referenced"
  else
    primitiveTypeCheck primitiveType
      (if (indices.getD []).length = 0 then vertexCount else (indices.getD []).length)

/-- `Geometry.Set`: validate, then replace every field.  The validation
assertions all run before the first field assignment, so a failure returns
the receiver untouched. -/
def Geometry.set (g : Geometry) (vertexCount : Nat) (vertices : List ℚ)
    (indices : Option (List Nat)) (primitiveType : PrimitiveType)
    (vertexAttributes : List String) (bufferLayout : BufferLayout) :
    Geometry × Option String :=
  match assertValidGeometry vertexCount vertices indices primitiveType vertexAttributes with
  | some e => (g, some e)
  | none =>
    ({ vertexCount := vertexCount, vertices := vertices, indices := indices,
       primitiveType := primitiveType, vertexAttributes := vertexAttributes,
       bufferLayout := bufferLayout }, none)

/-- The mutation phase of `Geometry.Append` (the statements of the source
body after the last assertion): the triangle-strip stitch, followed by the
verbatim append of the incoming vertex/index data with the incoming indices
offset by `uint16(g.vertexCount)` as it stands after the stitch. -/
def Geometry.appendData (g : Geometry) (vertexCount : Nat) (vertices : List ℚ)
    (indices : Option (List Nat)) (primitiveType : PrimitiveType) : Geometry :=
  let g1 :=
    if primitiveType = PrimitiveType.TRIANGLE_STRIP then
      let g0 :=
        match indices with
        | none =>
          let vertexSize := vertices.length / vertexCount
          let lastVertex := g.vertices.drop (g.vertices.length - vertexSize)
          let firstVertex := vertices.take vertexSize
          let vs := g.vertices ++ lastVertex ++ firstVertex ++
            (if g.vertexCount % 2 ≠ 0 then firstVertex else [])
          { g with vertices := vs }
        | some idxs =>
          let lastIdx : Nat := 0
          let firstIdx := (idxs.headD 0 + g.vertexCount % 65536) % 65536
          let is := (g.indices.getD []) ++ [lastIdx, firstIdx] ++
            (if g.vertexCount % 2 ≠ 0 then [firstIdx] else [])
          { g with indices := some is }
      { g0 with vertexCount := g0.vertexCount + 2 + g0.vertexCount % 2 }
    else g
  let offset := g1.vertexCount % 65536
  let newIndices :=
    match g1.indices, indices with
    | some a, some b => some (a ++ b.map fun i => (i + offset) % 65536)
    | some a, none => some a
    | none, some b => some (b.map fun i => (i + offset) % 65536)
    | none, none => none
  { g1 with
      vertices := g1.vertices ++ vertices,
      indices := newIndices,
      vertexCount := g1.vertexCount + vertexCount }

/-- `Geometry.Append` from `geometry.go`.  All failure points of the source
body (assertions and the two possible runtime panics in the triangle-strip
stitch) precede the first mutation of the receiver, and are rendered here as
early returns carrying the untouched receiver.

Source details mirrored exactly:
* the indexed triangle-strip stitch appends `lastIdx := uint16(0)` (the
  expression `g.indices[len(g.indices)-1]` is commented out in the source)
  and `firstIdx := indices[0] + uint16(g.vertexCount)`;
* after the stitch the source runs `g.vertexCount += 2 + g.vertexCount%2`
  in both the indexed and the non-indexed branch;
* the incoming indices are offset by `uint16(g.vertexCount)` as it stands
  after the stitch. -/
def Geometry.append (g : Geometry) (vertexCount : Nat) (vertices : List ℚ)
    (indices : Option (List Nat)) (primitiveType : PrimitiveType)
    (vertexAttributes : List String) (bufferLayout : BufferLayout) :
    Geometry × Option String :=
  if g.vertexCount = 0 then
    g.set vertexCount vertices indices primitiveType vertexAttributes bufferLayout
  else
    match assertValidGeometry vertexCount vertices indices primitiveType vertexAttributes with
    | some e => (g, some e)
    | none =>
      if g.primitiveType ≠ primitiveType then
        (g, some "Incompatible primitive type")
      else if ¬ equalStringSlice g.vertexAttributes vertexAttributes then
        (g, some "Incompatible vertex attributes")
      else if ¬ (g.vertexCount + vertexCount + 2 ≤ 65535) then
        (g, some "Resulting geometry is not indexable by uint16")
      else if g.indices.isSome ≠ indices.isSome then
        (g, some "Incompatible indexed-drawing property")
      else if vertexAttributes.length > 1 ∧ g.bufferLayout ≠ bufferLayout then
        (g, some "Incompatible buffer layouts")
      else if vertexAttributes.length > 1 ∧ bufferLayout ≠ BufferLayout.InterleavedBuffer then
        (g, some "Unsupported buffer layout")
      else if ¬ (primitiveType = .POINTS ∨ primitiveType = .LINES ∨
                 primitiveType = .TRIANGLES ∨ primitiveType = .TRIANGLE_STRIP) then
        (g, some "Unsupported primitive type")
      else if primitiveType = .TRIANGLE_STRIP ∧ indices = some [] then
        -- source would evaluate indices[0]: runtime index-out-of-range panic
        (g, some "runtime error: index out of range")
      else if primitiveType = .TRIANGLE_STRIP ∧ indices = none ∧
              g.vertices.length < vertices.length / vertexCount then
        -- source would slice g.vertices[len(g.vertices)-vertexSize:]:
        -- runtime slice-bounds panic
        (g, some "runtime error: slice bounds out of range")
      else
        (g.appendData vertexCount vertices indices primitiveType, none)

/-- `Geometry.AppendGeometry`: delegates to `Append` with the other
container's fields. -/
def Geometry.appendGeometry (g other : Geometry) : Geometry × Option String :=
  g.append other.vertexCount other.vertices other.indices other.primitiveType
    other.vertexAttributes other.bufferLayout

/-- The validity predicate of claim C2: the vertex data is a whole number of
vertices, and every present index references an existing vertex. -/
def geomInvariant (g : Geometry) : Prop :=
  (∃ vertexSize : Nat, g.vertices.length = g.vertexCount * vertexSize) ∧
  (∀ idxs, g.indices = some idxs → ∀ i ∈ idxs, i < g.vertexCount)

/-! ## The text component (`builtin/shapes/text.go`) -/

/-- An RGBA color (the `color.Color` the text component stores and passes to
the material uniform). -/
structure Color where
  r : ℚ
  g : ℚ
  b : ℚ
  a : ℚ
deriving DecidableEq, Repr

/-- `color.White`. -/
def Color.white : Color := ⟨1, 1, 1, 1⟩

/-- Per-rune glyph metrics: the `Char` structure the font loader fills
(`Width` = advance, `Offset`, `Pos`, `Size`, all integer 2-vectors /
scalars).  Named `FontChar` here because `Char` is Lean's rune type. -/
structure FontChar where
  Width : Int
  Offset : Int × Int
  Pos : Int × Int
  Size : Int × Int
deriving DecidableEq, Repr

/-- The `Font` structure (fields as filled by the loader in the font
package).  `Chars` is the rune → glyph map; `Font.Char(r)` is the map
lookup.  Two members used by the text component are not in the embedded
sources and are modelled from the spec:
* `avgWidth` — `Modelled from the spec:` the font description supplies an
  average glyph width (`AvgWidth()`), used for tab expansion;
* `texCoord` — `Modelled from the spec:` a function mapping a code point to
  normalized texture coordinates, top-left and bottom-right corners
  (`TexCoord(r)`). -/
structure Font where
  Family : String
  Style : String
  Size : Int
  Monospace : Bool
  Chars : Char → Option FontChar
  Ascender : Int
  Descender : Int
  Height : Int
  Texture : String
  avgWidth : ℚ
  texCoord : Char → (ℚ × ℚ) × (ℚ × ℚ)

/-- `vmath.Rectf` as used for text bounds. -/
structure Rectf where
  Min : ℚ × ℚ
  Max : ℚ × ℚ
deriving DecidableEq, Repr

/-- Go's `copy(dst[pos:], src)`: overwrite `dst` from position `pos` with
as many elements of `src` as fit, leaving everything else in place.  (In
every call the layout walk makes, `pos ≤ dst.length` and the values fit
entirely, matching the source, where an out-of-range start would panic.) -/
def listWrite {α : Type} (l : List α) (pos : Nat) (vals : List α) : List α :=
  l.take pos ++ vals.take (l.length - pos) ++
    l.drop (pos + min vals.length (l.length - pos))

/-- The running state of the glyph walk inside `Text.update`: horizontal
cursor (`origin`), vertical `baseline`, the vertex counter `vtx` (a
`uint16` in the source: every increment and every product `vtx*4` used as
a copy offset is taken `% 65536`), the index write position `idx` (a Go
`int`, unbounded), the running maximum line width that `bounds.Max[0]`
accumulates at line breaks, and the two preallocated buffers `verts` and
`idxs` that the loop writes in place through `copy`. -/
structure LayoutState where
  origin : ℚ
  baseline : ℚ
  vtx : Nat
  idx : Nat
  maxX : ℚ
  verts : List ℚ
  idxs : List Nat

/-- One iteration of the rune loop in `Text.update`.  A glyph writes 16
floats at buffer offset `vtx*4` (uint16 product, hence `% 65536`) and 6
indices at `idx`; the written index values are uint16 sums. -/
def layoutStep (f : Font) (tabWidthPt : ℚ) (st : LayoutState) (r : Char) :
    LayoutState :=
  let scale : ℚ := 1 / (f.Height : ℚ)
  if r = '\r' then st
  else if r = '\n' then
    { st with
        maxX := if st.origin > st.maxX then st.origin else st.maxX,
        origin := 0,
        baseline := st.baseline - (f.Height : ℚ) * scale }
  else if r = '\t' then
    { st with origin := st.origin + tabWidthPt * scale }
  else
    match f.Chars r with
    | none => st
    | some c =>
      let xl := st.origin + (c.Offset.1 : ℚ) * scale
      let xr := xl + (c.Size.1 : ℚ) * scale
      let yt := st.baseline + (c.Offset.2 : ℚ) * scale
      let yb := yt - (c.Size.2 : ℚ) * scale
      let tl := (f.texCoord r).1
      let br := (f.texCoord r).2
      { st with
          verts := listWrite st.verts ((st.vtx * 4) % 65536)
            [xl, yb, tl.1, br.2,
             xr, yb, br.1, br.2,
             xr, yt, br.1, tl.2,
             xl, yt, tl.1, tl.2],
          idxs := listWrite st.idxs st.idx
            [st.vtx, (st.vtx + 1) % 65536, (st.vtx + 2) % 65536,
             (st.vtx + 2) % 65536, (st.vtx + 3) % 65536, st.vtx],
          origin := st.origin + (c.Width : ℚ) * scale,
          vtx := (st.vtx + 4) % 65536,
          idx := st.idx + 6 }

/-- The initial walk state of `Text.update`: zero cursor and counters, and
the preallocated buffers `make([]float32, len(text)*4*4)` and
`make([]uint16, len(text)*6)`. -/
def layoutInit (text : List Char) : LayoutState :=
  { origin := 0, baseline := 0, vtx := 0, idx := 0, maxX := 0,
    verts := List.replicate (text.length * 4 * 4) 0,
    idxs := List.replicate (text.length * 6) 0 }

/-- The full rune walk of `Text.update`. -/
def layoutText (f : Font) (tabWidthPt : ℚ) (text : List Char) : LayoutState :=
  text.foldl (layoutStep f tabWidthPt) (layoutInit text)

/-- Abstraction of the walk used for reasoning: the same cursor arithmetic,
but the emitted vertex/index data collected sequentially in growing lists
and the vertex counter kept unbounded.  Below the uint16 wrap this is
provably what the in-place buffer writes of `layoutStep` produce (see
`layout_sim_fold`). -/
structure LayoutRun where
  origin : ℚ
  baseline : ℚ
  vtx : Nat
  maxX : ℚ
  verts : List ℚ
  idxs : List Nat

/-- One walk iteration in the sequential abstraction. -/
def layoutRunStep (f : Font) (tabWidthPt : ℚ) (st : LayoutRun) (r : Char) :
    LayoutRun :=
  let scale : ℚ := 1 / (f.Height : ℚ)
  if r = '\r' then st
  else if r = '\n' then
    { st with
        maxX := if st.origin > st.maxX then st.origin else st.maxX,
        origin := 0,
        baseline := st.baseline - (f.Height : ℚ) * scale }
  else if r = '\t' then
    { st with origin := st.origin + tabWidthPt * scale }
  else
    match f.Chars r with
    | none => st
    | some c =>
      let xl := st.origin + (c.Offset.1 : ℚ) * scale
      let xr := xl + (c.Size.1 : ℚ) * scale
      let yt := st.baseline + (c.Offset.2 : ℚ) * scale
      let yb := yt - (c.Size.2 : ℚ) * scale
      let tl := (f.texCoord r).1
      let br := (f.texCoord r).2
      { st with
          verts := st.verts ++
            [xl, yb, tl.1, br.2,
             xr, yb, br.1, br.2,
             xr, yt, br.1, tl.2,
             xl, yt, tl.1, tl.2],
          idxs := st.idxs ++
            [st.vtx, st.vtx + 1, st.vtx + 2, st.vtx + 2, st.vtx + 3, st.vtx],
          origin := st.origin + (c.Width : ℚ) * scale,
          vtx := st.vtx + 4 }

/-- The empty starting state of the abstract walk. -/
def layoutRunInit : LayoutRun :=
  { origin := 0, baseline := 0, vtx := 0, maxX := 0, verts := [], idxs := [] }

/-- The abstract walk over a whole text, from the empty state. -/
def layoutRun (f : Font) (tabWidthPt : ℚ) (text : List Char) : LayoutRun :=
  text.foldl (layoutRunStep f tabWidthPt) layoutRunInit

/-- The `Text` component state: font, tab width (characters) and its cached
point width `tabWidthPt`, the text, the cached bounds, the owned mesh's
geometry data (what `SetVertexData` received last), the stored color and
the material's color uniform. -/
structure TextState where
  font : Font
  tabWidth : Int
  tabWidthPt : ℚ
  text : List Char
  bounds : Rectf
  meshVertexCount : Nat
  meshVertices : List ℚ
  meshIndices : List Nat
  color : Color
  materialColor : Color

/-- `Text.update`: regenerates bounds and mesh data from the current font,
text and cached `tabWidthPt`.  `FontScaling` = `1 / font.Height`.  After
the walk the source trims the buffers to the written portions,
`vertices[:vtx*4]` (another uint16 product, hence `% 65536`) and
`indices[:idx]`, and stores `vertexCount := int(vtx)`.  The mesh receives
(vertexCount, vertices, indices, TRIANGLES, [position, texCoord],
interleaved); the geometry tuple is stored here directly. -/
def Text.update (s : TextState) : TextState :=
  let f := s.font
  let scale : ℚ := 1 / (f.Height : ℚ)
  let st := layoutText f s.tabWidthPt s.text
  let maxX := if st.origin > st.maxX then st.origin else st.maxX
  { s with
      bounds :=
        { Min := (0, st.baseline + (f.Descender : ℚ) * scale),
          Max := (maxX, (f.Ascender : ℚ) * scale) },
      meshVertexCount := st.vtx,
      meshVertices := st.verts.take ((st.vtx * 4) % 65536),
      meshIndices := st.idxs.take st.idx }

/-- `NewText`: tab width 4 characters, `tabWidthPt = 4 * font.AvgWidth()`,
initial update, then `SetColor(color.White)` (the color field also starts
as white). -/
def Text.newText (f : Font) (text : List Char) : TextState :=
  let s : TextState :=
    { font := f, tabWidth := 4, tabWidthPt := 4 * f.avgWidth, text := text,
      bounds := ⟨(0, 0), (0, 0)⟩, meshVertexCount := 0, meshVertices := [],
      meshIndices := [], color := Color.white, materialColor := Color.white }
  let s := Text.update s
  { s with color := Color.white, materialColor := Color.white }

/-- `Text.Set`: replace the text and update. -/
def Text.set (s : TextState) (text : List Char) : TextState :=
  Text.update { s with text := text }

/-- `Text.SetFont`: replace the font and update.  (The source does not
recompute `tabWidthPt` here.) -/
def Text.setFont (s : TextState) (f : Font) : TextState :=
  Text.update { s with font := f }

/-- `Text.SetTabWidth`: replace the tab width, recompute `tabWidthPt` from
the current font, and update. -/
def Text.setTabWidth (s : TextState) (tabWidth : Int) : TextState :=
  let s := { s with tabWidth := tabWidth,
                    tabWidthPt := (tabWidth : ℚ) * s.font.avgWidth }
  Text.update s

/-- `Text.SetColor`: store the color and push it to the material's color
uniform. -/
def Text.setColor (s : TextState) (c : Color) : TextState :=
  { s with color := c, materialColor := c }

/-- Code points the layout walk treats as printable glyph positions
(everything except carriage return, newline and tab). -/
def printableRune (r : Char) : Bool :=
  r ≠ '\r' ∧ r ≠ '\n' ∧ r ≠ '\t'

/-- Number of printable code points of a text. -/
def printableCount (text : List Char) : Nat :=
  (text.filter printableRune).length

/-- Printable code points whose glyph exists in the font: exactly these emit
a quad. -/
def emittedCount (f : Font) (text : List Char) : Nat :=
  (text.filter fun r => printableRune r ∧ (f.Chars r).isSome).length

/-! ## Concrete geometries used by the claims about `Append` -/

/-- An indexed triangle-strip geometry: 4 vertices (one float each) indexed
by `[0, 1, 2, 3]`.  It passes `AssertValidGeometry`. -/
def gStripIdx : Geometry :=
  ⟨4, [0, 1, 2, 3], some [0, 1, 2, 3], .TRIANGLE_STRIP, ["position"],
   .InterleavedBuffer⟩

/-- Result of appending an indexed triangle-strip run of 3 vertices with
indices `[0, 1, 2]` onto `gStripIdx`. -/
def gStripIdxApp : Geometry × Option String :=
  gStripIdx.append 3 [4, 5, 6] (some [0, 1, 2]) .TRIANGLE_STRIP ["position"]
    .InterleavedBuffer

/-- A non-indexed triangles geometry used for failed-append and zero-append
claims. -/
def gTri : Geometry :=
  ⟨3, [0, 1, 2], none, .TRIANGLES, ["position"], .InterleavedBuffer⟩

/-! ## Theorems -/

/-- Helper: `equalStringSlice` accepts equal lists. -/
theorem equalStringSlice_self (a : List String) : equalStringSlice a a = true := by
  induction a with
  | nil => rfl
  | cons x xs ih =>
    simp [equalStringSlice] at ih ⊢
    exact ih

/-- C1.  Merging an indexed TriangleStrip run onto a non-empty indexed
TriangleStrip geometry: the claim says the first synthetic index at the
join equals the index of the last vertex referenced by the existing run.
Evaluating the code on `gStripIdx` (last referenced index 3): the appended
synthetic pair is `(0, 4)` — the first synthetic index is the hard-coded
`uint16(0)`, not 3.  (The second synthetic index, 4 = incoming first index
0 shifted by the existing vertex count, matches the claim.) -/
theorem claim_C1_indexed_strip_join_uses_zero_index :
    gStripIdxApp.2 = none ∧
    gStripIdxApp.1.indices = some [0, 1, 2, 3, 0, 4, 6, 7, 8] ∧
    (gStripIdx.indices.getD []).getLastD 0 = 3 ∧
    (gStripIdxApp.1.indices.getD [])[4]? = some 0 ∧
    (0 : Nat) ≠ 3 := by
  refine ⟨by decide, by decide, by decide, by decide, by decide⟩

/-- C2.  The validity predicate (`vertices.length` is a whole multiple of
`vertexCount`; present indices in range) holds for `gStripIdx`, the indexed
triangle-strip append succeeds, and yet the result violates the predicate:
the append bumps `vertexCount` to 9 (4 + 2 stitch + 3 incoming) while the
vertex array holds 7 floats.  Re-running the code's own validator on the
result rejects it. -/
theorem claim_C2_indexed_strip_append_breaks_invariant :
    geomInvariant gStripIdx ∧
    gStripIdxApp.2 = none ∧
    ¬ geomInvariant gStripIdxApp.1 ∧
    assertValidGeometry gStripIdxApp.1.vertexCount gStripIdxApp.1.vertices
      gStripIdxApp.1.indices gStripIdxApp.1.primitiveType
      gStripIdxApp.1.vertexAttributes ≠ none := by
  refine ⟨⟨⟨1, by decide⟩, ?_⟩, by decide, ?_, by decide⟩
  · intro idxs h i hi
    have hidx : idxs = [0, 1, 2, 3] := by
      have h' : some [0, 1, 2, 3] = some idxs := h
      exact (Option.some_inj.mp h').symm
    subst hidx
    have hvc : gStripIdx.vertexCount = 4 := rfl
    rw [hvc]
    fin_cases hi <;> decide
  · rintro ⟨⟨vs, hvs⟩, -⟩
    have h7 : gStripIdxApp.1.vertices.length = 7 := by decide
    have h9 : gStripIdxApp.1.vertexCount = 9 := by decide
    rw [h7, h9] at hvs
    omega

/-- C3.  Modelling the repository's `assert` package from the spec (a failed
assertion aborts the operation before the next statement runs), every
failure of `Set` or `Append` leaves the container exactly as it was: in the
source, every assertion and every possible runtime panic precedes the first
field mutation. -/
theorem claim_C3_failed_set_append_leave_geometry_unchanged
    (g : Geometry) (vertexCount : Nat) (vertices : List ℚ)
    (indices : Option (List Nat)) (primitiveType : PrimitiveType)
    (vertexAttributes : List String) (bufferLayout : BufferLayout) :
    ((g.set vertexCount vertices indices primitiveType vertexAttributes
        bufferLayout).2.isSome →
      (g.set vertexCount vertices indices primitiveType vertexAttributes
        bufferLayout).1 = g) ∧
    ((g.append vertexCount vertices indices primitiveType vertexAttributes
        bufferLayout).2.isSome →
      (g.append vertexCount vertices indices primitiveType vertexAttributes
        bufferLayout).1 = g) := by
  have hset : ∀ g' : Geometry,
      (Geometry.set g' vertexCount vertices indices primitiveType
        vertexAttributes bufferLayout).2.isSome →
      (Geometry.set g' vertexCount vertices indices primitiveType
        vertexAttributes bufferLayout).1 = g' := by
    intro g'
    unfold Geometry.set
    cases hv : assertValidGeometry vertexCount vertices indices primitiveType
        vertexAttributes <;> simp
  refine ⟨hset g, ?_⟩
  unfold Geometry.append
  by_cases h0 : g.vertexCount = 0
  · simpa [h0] using hset g
  · simp only [h0, if_false]
    cases hv : assertValidGeometry vertexCount vertices indices primitiveType
        vertexAttributes <;> simp only
    · split_ifs <;> simp
    · simp

/-- Witness for C3: appending a Lines run onto the Triangles geometry
`gTri` fails (incompatible primitive type) and leaves `gTri` unchanged. -/
theorem claim_C3_witness :
    (gTri.append 2 [0, 1] none .LINES ["position"]
        .InterleavedBuffer).2.isSome = true ∧
    (gTri.append 2 [0, 1] none .LINES ["position"]
        .InterleavedBuffer).1 = gTri :=
  ⟨by decide,
   (claim_C3_failed_set_append_leave_geometry_unchanged gTri 2 [0, 1] none
      .LINES ["position"] .InterleavedBuffer).2 (by decide)⟩

/-- C5 counterexample.  The claim says validation requires
`effectiveIndexCount ≥ 2` for LineStrip; the code accepts a LineStrip
geometry whose effective index count is 1 (its `LINE_STRIP` case asserts
only `≥ 1`), and it accepts LineLoop (a primitive type outside the claim's
six constrained ones) with no constraint instead of rejecting it. -/
theorem claim_C5_counterexample :
    assertValidGeometry 1 [0] none .LINE_STRIP ["position"] = none ∧
    (1 : Nat) < 2 ∧
    assertValidGeometry 0 [] none .LINE_LOOP [] = none := by
  refine ⟨by decide, by decide, by decide⟩

set_option maxHeartbeats 1600000 in
/-- C5 amended.  Validation's primitive-type stage accepts: Points and
LineLoop always, Lines iff the effective index count is even, Triangles iff
it is divisible by 3, LineStrip iff it is ≥ 1, and TriangleStrip /
TriangleFan iff it is ≥ 2; and a geometry accepted by `assertValidGeometry`
passes that stage at the effective index count (index count when nonzero,
else the vertex count). -/
theorem claim_C5_amended_primitive_type_validation
    (vertexCount : Nat) (vertices : List ℚ) (indices : Option (List Nat))
    (primitiveType : PrimitiveType) (vertexAttributes : List String)
    (n : Nat)
    (h : assertValidGeometry vertexCount vertices indices primitiveType
      vertexAttributes = none) :
    primitiveTypeCheck primitiveType
      (if (indices.getD []).length = 0 then vertexCount
       else (indices.getD []).length) = none ∧
    primitiveTypeCheck .POINTS n = none ∧
    primitiveTypeCheck .LINE_LOOP n = none ∧
    (primitiveTypeCheck .LINES n = none ↔ n % 2 = 0) ∧
    (primitiveTypeCheck .TRIANGLES n = none ↔ n % 3 = 0) ∧
    (primitiveTypeCheck .LINE_STRIP n = none ↔ 1 ≤ n) ∧
    (primitiveTypeCheck .TRIANGLE_STRIP n = none ↔ 2 ≤ n) ∧
    (primitiveTypeCheck .TRIANGLE_FAN n = none ↔ 2 ≤ n) := by
  constructor
  · unfold assertValidGeometry at h
    split_ifs at h
    all_goals first
    | exact Option.noConfusion h
    | (rw [if_pos (by assumption)]; exact h)
    | (rw [if_neg (by assumption)]; exact h)
  · refine ⟨rfl, rfl, ?_, ?_, ?_, ?_, ?_⟩ <;>
      simp [primitiveTypeCheck] <;> omega

/-- C4.  Appending a non-indexed TriangleStrip run of `N2` vertices (vertex
size `vs`) onto a non-empty compatible non-indexed TriangleStrip geometry
succeeds; the resulting vertex count is `N1 + N2 + 2` for even `N1` and
`N1 + N2 + 3` for odd `N1`; and the resulting vertex stream is the old
data, a copy of the last existing vertex, one copy (two if `N1` is odd) of
the first incoming vertex, then the incoming data verbatim. -/
theorem claim_C4_nonindexed_strip_append
    (g : Geometry) (N2 : Nat) (v2 : List ℚ) (bl : BufferLayout) (vs : Nat)
    (h0 : g.vertexCount ≠ 0)
    (hpt : g.primitiveType = .TRIANGLE_STRIP)
    (hidx : g.indices = none)
    (hval : assertValidGeometry N2 v2 none .TRIANGLE_STRIP
      g.vertexAttributes = none)
    (hfit : g.vertexCount + N2 + 2 ≤ 65535)
    (hbl : g.vertexAttributes.length ≤ 1 ∨
      (g.bufferLayout = bl ∧ bl = .InterleavedBuffer))
    (hN2 : 0 < N2)
    (hv2 : v2.length = N2 * vs)
    (hg : g.vertices.length = g.vertexCount * vs) :
    (g.append N2 v2 none .TRIANGLE_STRIP g.vertexAttributes bl).2 = none ∧
    (g.append N2 v2 none .TRIANGLE_STRIP g.vertexAttributes bl).1.vertexCount =
      g.vertexCount + N2 + (if g.vertexCount % 2 = 0 then 2 else 3) ∧
    (g.append N2 v2 none .TRIANGLE_STRIP g.vertexAttributes bl).1.vertices =
      g.vertices ++ g.vertices.drop ((g.vertexCount - 1) * vs) ++ v2.take vs ++
        (if g.vertexCount % 2 = 0 then [] else v2.take vs) ++ v2 ∧
    (g.append N2 v2 none .TRIANGLE_STRIP g.vertexAttributes bl).1.indices =
      none := by
  have hvs : v2.length / N2 = vs := by
    rw [hv2]
    exact Nat.mul_div_cancel_left vs hN2
  have hvpos : 0 < g.vertexCount := Nat.pos_of_ne_zero h0
  have happ : g.append N2 v2 none .TRIANGLE_STRIP g.vertexAttributes bl =
      (g.appendData N2 v2 none .TRIANGLE_STRIP, none) := by
    unfold Geometry.append
    rw [if_neg h0, hval]
    rw [if_neg (by simp [hpt])]
    rw [if_neg (by simp [equalStringSlice_self])]
    rw [if_neg (not_not_intro hfit)]
    rw [if_neg (by simp [hidx])]
    rw [if_neg (fun hc => by
      rcases hbl with h | ⟨h1, h2⟩
      · exact absurd hc.1 (by omega)
      · exact hc.2 h1)]
    rw [if_neg (fun hc => by
      rcases hbl with h | ⟨h1, h2⟩
      · exact absurd hc.1 (by omega)
      · exact hc.2 h2)]
    rw [if_neg (by simp)]
    rw [if_neg (by simp)]
    rw [if_neg (by
      rw [hvs]
      have hle : vs ≤ g.vertices.length := by
        rw [hg]
        calc vs = 1 * vs := (Nat.one_mul vs).symm
        _ ≤ g.vertexCount * vs := Nat.mul_le_mul_right vs hvpos
      simp
      omega)]
  have hdata : g.appendData N2 v2 none .TRIANGLE_STRIP =
      { g with
          vertexCount := g.vertexCount + 2 + g.vertexCount % 2 + N2,
          vertices := (g.vertices ++ g.vertices.drop (g.vertices.length - vs) ++
            v2.take vs ++
            (if g.vertexCount % 2 ≠ 0 then v2.take vs else [])) ++ v2 } := by
    unfold Geometry.appendData
    rw [if_pos rfl, hvs]
    simp only [hidx]
  rw [happ, hdata]
  have hdrop : g.vertices.length - vs = (g.vertexCount - 1) * vs := by
    rw [hg, Nat.sub_mul, Nat.one_mul]
  refine ⟨rfl, ?_, ?_, hidx⟩
  · by_cases hpar : g.vertexCount % 2 = 0 <;> simp [hpar] <;> omega
  · rw [hdrop]
    by_cases hpar : g.vertexCount % 2 = 0 <;> simp [hpar, List.append_assoc]

/-- Witness for C4: appending a 2-vertex strip run (vertex size 2) onto a
2-vertex strip geometry. -/
theorem claim_C4_witness :
    ((⟨2, [1, 2, 3, 4], none, .TRIANGLE_STRIP, ["position"],
        .InterleavedBuffer⟩ : Geometry).append 2 [5, 6, 7, 8] none
        .TRIANGLE_STRIP ["position"] .InterleavedBuffer).2 = none ∧
    ((⟨2, [1, 2, 3, 4], none, .TRIANGLE_STRIP, ["position"],
        .InterleavedBuffer⟩ : Geometry).append 2 [5, 6, 7, 8] none
        .TRIANGLE_STRIP ["position"] .InterleavedBuffer).1.vertexCount = 6 ∧
    ((⟨2, [1, 2, 3, 4], none, .TRIANGLE_STRIP, ["position"],
        .InterleavedBuffer⟩ : Geometry).append 2 [5, 6, 7, 8] none
        .TRIANGLE_STRIP ["position"] .InterleavedBuffer).1.vertices =
      [1, 2, 3, 4, 3, 4, 5, 6, 5, 6, 7, 8] := by
  have h := claim_C4_nonindexed_strip_append
    (⟨2, [1, 2, 3, 4], none, .TRIANGLE_STRIP, ["position"],
      .InterleavedBuffer⟩ : Geometry) 2 [5, 6, 7, 8] .InterleavedBuffer 2
    (by decide) rfl rfl (by decide) (by decide) (Or.inl (by decide))
    (by decide) (by decide) (by decide)
  exact ⟨h.1, by rw [h.2.1]; decide, by rw [h.2.2.1]; decide⟩

/-- C9 counterexample.  `gStripIdx` is established by a successful `Set`,
but appending a zero-length TriangleStrip run onto it is rejected (the
incoming run fails validation: effective index count 0 < 2), so the
append of an empty run is not accepted for every supported primitive
type. -/
theorem claim_C9_counterexample :
    Geometry.set ⟨0, [], none, .POINTS, [], .InterleavedBuffer⟩ 4
        [0, 1, 2, 3] (some [0, 1, 2, 3]) .TRIANGLE_STRIP ["position"]
        .InterleavedBuffer = (gStripIdx, none) ∧
    (gStripIdx.append 0 [] (some []) .TRIANGLE_STRIP ["position"]
        .InterleavedBuffer).2.isSome = true := by
  refine ⟨by decide, by decide⟩

/-- C9 amended.  For a non-empty geometry of primitive type Points, Lines
or Triangles (with an interleaved layout when more than one attribute is
declared), appending a zero-length run with matching primitive type,
attributes, layout and indexed-ness is accepted and leaves the container
unchanged; for the strip/fan primitive types the zero-length run itself
fails validation, so the append is rejected (see the counterexample). -/
theorem claim_C9_amended_zero_append_noop
    (g : Geometry) (idx0 : Option (List Nat))
    (h0 : g.vertexCount ≠ 0)
    (hpt : g.primitiveType = .POINTS ∨ g.primitiveType = .LINES ∨
      g.primitiveType = .TRIANGLES)
    (hfit : g.vertexCount + 2 ≤ 65535)
    (hbl : g.vertexAttributes.length ≤ 1 ∨
      g.bufferLayout = .InterleavedBuffer)
    (hidx0 : idx0 = g.indices.map fun _ => ([] : List Nat)) :
    g.append 0 [] idx0 g.primitiveType g.vertexAttributes g.bufferLayout =
      (g, none) := by
  have hval : assertValidGeometry 0 [] idx0 g.primitiveType
      g.vertexAttributes = none := by
    have hlen : (idx0.getD []).length = 0 := by
      rw [hidx0]
      cases g.indices <;> rfl
    unfold assertValidGeometry
    rw [if_neg (by simp), if_neg (by simp), if_neg (by simp),
      if_neg (by simp), if_neg (by simp [hlen]), if_neg (by simp [hlen]),
      if_neg (by simp [hlen]), if_neg (by simp [hlen]),
      if_neg (by simp [hlen]), if_pos hlen]
    rcases hpt with h | h | h <;> rw [h] <;> rfl
  have hnotstrip : g.primitiveType ≠ .TRIANGLE_STRIP := by
    rcases hpt with h | h | h <;> rw [h] <;> intro hc <;> cases hc
  unfold Geometry.append
  rw [if_neg h0, hval]
  rw [if_neg (by simp)]
  rw [if_neg (by simp [equalStringSlice_self])]
  rw [if_neg (not_not_intro (by omega))]
  rw [if_neg (by rw [hidx0]; cases g.indices <;> simp)]
  rw [if_neg (by rcases hbl with h | h <;> simp [h] <;> omega)]
  rw [if_neg (by rcases hbl with h | h <;> simp [h] <;> omega)]
  rw [if_neg (by simp; rcases hpt with h | h | h <;> rw [h] <;> simp)]
  rw [if_neg (by simp [hnotstrip])]
  rw [if_neg (by simp [hnotstrip])]
  unfold Geometry.appendData
  rw [if_neg hnotstrip]
  rw [hidx0]
  cases hgi : g.indices
  · simp [hgi]
    rw [← hgi]
  · simp [hgi]
    rw [← hgi]

/-- Witness for C9 amended: appending a zero-length Triangles run onto
`gTri` returns `gTri` unchanged with no error. -/
theorem claim_C9_amended_witness :
    gTri.append 0 [] none .TRIANGLES ["position"] .InterleavedBuffer =
      (gTri, none) :=
  claim_C9_amended_zero_append_noop gTri none (by decide)
    (Or.inr (Or.inr rfl)) (by decide) (Or.inl (by decide)) rfl

/-- A test font: glyphs for A, B and C, each with advance width 10, line
height 20, ascender 15, descender -5, average glyph width 10. -/
def F1 : Font :=
  { Family := "test", Style := "regular", Size := 20, Monospace := true,
    Chars := fun r =>
      if r = 'A' ∨ r = 'B' ∨ r = 'C' then some ⟨10, (0, 10), (0, 0), (8, 10)⟩
      else none,
    Ascender := 15, Descender := -5, Height := 20, Texture := "tex",
    avgWidth := 10, texCoord := fun _ => ((0, 0), (1, 1)) }

/-- The same font with average glyph width 20. -/
def F2 : Font := { F1 with avgWidth := 20 }

/-- Helper: a code point that is printable but misses from the font leaves
the abstract walk state unchanged. -/
theorem layoutRunStep_missing (f : Font) (twPt : ℚ) (c : Char)
    (hcp : printableRune c = true) (hmiss : f.Chars c = none)
    (st : LayoutRun) : layoutRunStep f twPt st c = st := by
  unfold printableRune at hcp
  simp only [decide_eq_true_eq] at hcp
  obtain ⟨h1, h2, h3⟩ := hcp
  unfold layoutRunStep
  rw [if_neg h1, if_neg h2, if_neg h3, hmiss]

/-- `emittedCount` unfolded over cons. -/
theorem emittedCount_cons (f : Font) (r : Char) (l : List Char) :
    emittedCount f (r :: l) =
      (if printableRune r && (f.Chars r).isSome then 1 else 0) +
        emittedCount f l := by
  unfold emittedCount
  rw [List.filter_cons]
  by_cases hc : (printableRune r && (f.Chars r).isSome) = true
  · simp [hc]
    omega
  · simp [hc]

/-- Emitted quads are at most the number of code points. -/
theorem emittedCount_le_length (f : Font) (l : List Char) :
    emittedCount f l ≤ l.length :=
  List.length_filter_le _ _

/-- Helper: each abstract step advances the vertex counter by 4 exactly
when the code point is printable and its glyph exists. -/
theorem layoutRunStep_vtx (f : Font) (twPt : ℚ) (st : LayoutRun) (r : Char) :
    (layoutRunStep f twPt st r).vtx =
      st.vtx +
        (if printableRune r && (f.Chars r).isSome then 4 else 0) := by
  unfold layoutRunStep printableRune
  by_cases h1 : r = '\r'
  · simp [h1]
  by_cases h2 : r = '\n'
  · simp [h2]
  by_cases h3 : r = '\t'
  · simp [h3]
  cases hc : f.Chars r <;> simp [h1, h2, h3, hc]

/-- Helper: the abstract vertex counter after a walk counts emitted quads. -/
theorem layoutRun_foldl_vtx (f : Font) (twPt : ℚ) (l : List Char)
    (st : LayoutRun) :
    (l.foldl (layoutRunStep f twPt) st).vtx =
      st.vtx + 4 * emittedCount f l := by
  induction l generalizing st with
  | nil => simp [emittedCount]
  | cons r l ih =>
    rw [List.foldl_cons, ih, layoutRunStep_vtx, emittedCount_cons]
    by_cases hc : (printableRune r && (f.Chars r).isSome) = true
    · rw [if_pos hc, if_pos hc]
      omega
    · rw [if_neg hc, if_neg hc]
      omega

/-- Helper: each buffer step either wraps the uint16 vertex counter forward
by 4 (when a glyph is emitted) or leaves it unchanged. -/
theorem layoutStep_vtx (f : Font) (twPt : ℚ) (st : LayoutState) (r : Char) :
    (layoutStep f twPt st r).vtx =
      if printableRune r && (f.Chars r).isSome then (st.vtx + 4) % 65536
      else st.vtx := by
  unfold layoutStep printableRune
  by_cases h1 : r = '\r'
  · simp [h1]
  by_cases h2 : r = '\n'
  · simp [h2]
  by_cases h3 : r = '\t'
  · simp [h3]
  cases hc : f.Chars r <;> simp [h1, h2, h3, hc]

/-- Helper: the uint16 vertex counter after a buffer walk is the emitted
quad count times 4, reduced modulo 65536. -/
theorem layout_foldl_vtx (f : Font) (twPt : ℚ) (l : List Char)
    (st : LayoutState) (hlt : st.vtx < 65536) :
    (l.foldl (layoutStep f twPt) st).vtx =
      (st.vtx + 4 * emittedCount f l) % 65536 := by
  induction l generalizing st with
  | nil =>
    simp [emittedCount]
    omega
  | cons r l ih =>
    rw [List.foldl_cons, emittedCount_cons]
    have hv := layoutStep_vtx f twPt st r
    have hlt' : (layoutStep f twPt st r).vtx < 65536 := by
      rw [hv]
      by_cases hc : (printableRune r && (f.Chars r).isSome) = true
      · rw [if_pos hc]
        exact Nat.mod_lt _ (by omega)
      · rw [if_neg hc]
        exact hlt
    rw [ih _ hlt', hv]
    by_cases hc : (printableRune r && (f.Chars r).isSome) = true
    · rw [if_pos hc, if_pos hc]
      omega
    · rw [if_neg hc, if_neg hc]
      omega

/-- Writing at the end of the filled prefix of a zero-padded buffer extends
the filled prefix (the only kind of `copy` the walk performs below the
uint16 wrap). -/
theorem listWrite_append {α : Type} (w : List α) (k : Nat) (z : α)
    (vals : List α) (hk : vals.length ≤ k) :
    listWrite (w ++ List.replicate k z) w.length vals =
      w ++ vals ++ List.replicate (k - vals.length) z := by
  have hlen : (w ++ List.replicate k z).length = w.length + k := by simp
  unfold listWrite
  rw [hlen, List.take_left]
  rw [show w.length + k - w.length = k from by omega]
  rw [List.take_of_length_le hk, Nat.min_eq_left hk,
    List.drop_append vals.length, List.drop_replicate]

/-- Correspondence between a buffer walk state and an abstract run state
after `e` emitted quads: cursor components agree, the counters encode `e`,
and each buffer is the sequential data followed by its unwritten zero
padding. -/
def LayoutSim (N M e : Nat) (b : LayoutState) (s : LayoutRun) : Prop :=
  b.origin = s.origin ∧ b.baseline = s.baseline ∧ b.maxX = s.maxX ∧
  b.vtx = 4 * e ∧ s.vtx = 4 * e ∧ b.idx = 6 * e ∧
  s.verts.length = 16 * e ∧ s.idxs.length = 6 * e ∧
  b.verts = s.verts ++ List.replicate (N - 16 * e) (0 : ℚ) ∧
  b.idxs = s.idxs ++ List.replicate (M - 6 * e) 0

/-- One step preserves the correspondence; an emitting step needs headroom
below the uint16 wrap and inside the preallocated buffers. -/
theorem layout_sim_step (f : Font) (twPt : ℚ) (N M e : Nat)
    (b : LayoutState) (s : LayoutRun) (r : Char)
    (hrel : LayoutSim N M e b s)
    (hcap : (printableRune r && (f.Chars r).isSome) = true →
      e + 1 ≤ 4096 ∧ 16 * (e + 1) ≤ N ∧ 6 * (e + 1) ≤ M) :
    LayoutSim N M
      (e + (if printableRune r && (f.Chars r).isSome then 1 else 0))
      (layoutStep f twPt b r) (layoutRunStep f twPt s r) := by
  obtain ⟨ho, hb, hm, hbv, hsv, hbi, hsl, hil, hbw, hbx⟩ := hrel
  by_cases h1 : r = '\r'
  · subst h1
    have hδ : (printableRune '\r' && (f.Chars '\r').isSome) = false := by
      simp [printableRune]
    have hsb : layoutStep f twPt b '\r' = b := by
      unfold layoutStep
      rw [if_pos rfl]
    have hss : layoutRunStep f twPt s '\r' = s := by
      unfold layoutRunStep
      rw [if_pos rfl]
    rw [hδ, hsb, hss]
    exact ⟨ho, hb, hm, hbv, hsv, hbi, hsl, hil, hbw, hbx⟩
  by_cases h2 : r = '\n'
  · subst h2
    have hδ : (printableRune '\n' && (f.Chars '\n').isSome) = false := by
      simp [printableRune]
    have hsb : layoutStep f twPt b '\n' =
        { b with
            maxX := if b.origin > b.maxX then b.origin else b.maxX,
            origin := 0,
            baseline := b.baseline -
              (f.Height : ℚ) * (1 / (f.Height : ℚ)) } := by
      unfold layoutStep
      rw [if_neg (by decide), if_pos rfl]
    have hss : layoutRunStep f twPt s '\n' =
        { s with
            maxX := if s.origin > s.maxX then s.origin else s.maxX,
            origin := 0,
            baseline := s.baseline -
              (f.Height : ℚ) * (1 / (f.Height : ℚ)) } := by
      unfold layoutRunStep
      rw [if_neg (by decide), if_pos rfl]
    rw [hδ, hsb, hss]
    exact ⟨rfl, by show b.baseline - _ = s.baseline - _; rw [hb],
      by show (if b.origin > b.maxX then b.origin else b.maxX) = _; rw [ho, hm],
      hbv, hsv, hbi, hsl, hil, hbw, hbx⟩
  by_cases h3 : r = '\t'
  · subst h3
    have hδ : (printableRune '\t' && (f.Chars '\t').isSome) = false := by
      simp [printableRune]
    have hsb : layoutStep f twPt b '\t' =
        { b with origin := b.origin + twPt * (1 / (f.Height : ℚ)) } := by
      unfold layoutStep
      rw [if_neg (by decide), if_neg (by decide), if_pos rfl]
    have hss : layoutRunStep f twPt s '\t' =
        { s with origin := s.origin + twPt * (1 / (f.Height : ℚ)) } := by
      unfold layoutRunStep
      rw [if_neg (by decide), if_neg (by decide), if_pos rfl]
    rw [hδ, hsb, hss]
    exact ⟨by show b.origin + _ = s.origin + _; rw [ho],
      hb, hm, hbv, hsv, hbi, hsl, hil, hbw, hbx⟩
  cases hc : f.Chars r with
  | none =>
    have hδ : (printableRune r && (none : Option FontChar).isSome) = false := by
      simp
    have hsb : layoutStep f twPt b r = b := by
      unfold layoutStep
      rw [if_neg h1, if_neg h2, if_neg h3, hc]
    have hss : layoutRunStep f twPt s r = s := by
      unfold layoutRunStep
      rw [if_neg h1, if_neg h2, if_neg h3, hc]
    rw [hδ, hsb, hss]
    exact ⟨ho, hb, hm, hbv, hsv, hbi, hsl, hil, hbw, hbx⟩
  | some c =>
    have hδ : (printableRune r && (some c : Option FontChar).isSome) = true := by
      simp [printableRune, h1, h2, h3]
    obtain ⟨he, hN, hM⟩ := hcap (by rw [hc]; exact hδ)
    rw [hδ]
    unfold layoutStep layoutRunStep
    rw [if_neg h1, if_neg h2, if_neg h3, if_neg h1, if_neg h2, if_neg h3, hc]
    simp only [if_pos rfl]
    refine ⟨?_, ?_, ?_, ?_, ?_, ?_, ?_, ?_, ?_, ?_⟩
    · show b.origin + _ = s.origin + _
      rw [ho]
    · exact hb
    · exact hm
    · show (b.vtx + 4) % 65536 = 4 * (e + 1)
      rw [hbv, Nat.mod_eq_of_lt (by omega)]
      omega
    · show s.vtx + 4 = 4 * (e + 1)
      rw [hsv]
      omega
    · show b.idx + 6 = 6 * (e + 1)
      rw [hbi]
      omega
    · show (s.verts ++ _).length = 16 * (e + 1)
      rw [List.length_append, hsl]
      simp
      omega
    · show (s.idxs ++ _).length = 6 * (e + 1)
      rw [List.length_append, hil]
      simp
      omega
    · show listWrite b.verts ((b.vtx * 4) % 65536) _ = _
      rw [ho, hb, hbw, hbv,
        Nat.mod_eq_of_lt (show 4 * e * 4 < 65536 from by omega),
        show 4 * e * 4 = 16 * e from by ring, ← hsl,
        listWrite_append _ _ _ _ (by simp; omega)]
      congr 2
      simp
      rw [hsl]
      omega
    · show listWrite b.idxs b.idx _ = _
      rw [hbv, hsv, hbi, hbx,
        Nat.mod_eq_of_lt (show 4 * e + 1 < 65536 from by omega),
        Nat.mod_eq_of_lt (show 4 * e + 2 < 65536 from by omega),
        Nat.mod_eq_of_lt (show 4 * e + 3 < 65536 from by omega),
        ← hil, listWrite_append _ _ _ _ (by simp; omega)]
      congr 2
      simp
      rw [hil]
      omega

/-- The correspondence carries over a whole walk, provided the emitted
quads stay at or below the wrap threshold and fit the buffers. -/
theorem layout_sim_fold (f : Font) (twPt : ℚ) (N M : Nat) (l : List Char) :
    ∀ (e : Nat) (b : LayoutState) (s : LayoutRun),
      LayoutSim N M e b s →
      e + emittedCount f l ≤ 4096 →
      16 * (e + emittedCount f l) ≤ N →
      6 * (e + emittedCount f l) ≤ M →
      LayoutSim N M (e + emittedCount f l)
        (l.foldl (layoutStep f twPt) b) (l.foldl (layoutRunStep f twPt) s) := by
  induction l with
  | nil =>
    intro e b s hrel _ _ _
    simpa [emittedCount] using hrel
  | cons r l ih =>
    intro e b s hrel hcap hN hM
    rw [emittedCount_cons] at hcap hN hM ⊢
    rw [List.foldl_cons, List.foldl_cons]
    by_cases hc : (printableRune r && (f.Chars r).isSome) = true
    · rw [if_pos hc] at hcap hN hM ⊢
      have hstep := layout_sim_step f twPt N M e b s r hrel
        (fun _ => ⟨by omega, by omega, by omega⟩)
      rw [if_pos hc] at hstep
      have hrec := ih (e + 1) _ _ hstep (by omega) (by omega) (by omega)
      rw [show e + (1 + emittedCount f l) = e + 1 + emittedCount f l from by
        omega]
      exact hrec
    · rw [if_neg hc] at hcap hN hM ⊢
      have hstep := layout_sim_step f twPt N M e b s r hrel
        (fun hx => absurd hx hc)
      rw [if_neg hc] at hstep
      have hrec := ih e _ _ hstep (by omega) (by omega) (by omega)
      rw [show e + (0 + emittedCount f l) = e + emittedCount f l from by
        omega]
      exact hrec

/-- The buffer walk of `Text.update` simulates the abstract run whenever at
most 4096 quads are emitted (no uint16 wrap can occur). -/
theorem layoutText_sim (f : Font) (twPt : ℚ) (text : List Char)
    (hE : emittedCount f text ≤ 4096) :
    LayoutSim (text.length * 4 * 4) (text.length * 6) (emittedCount f text)
      (layoutText f twPt text) (layoutRun f twPt text) := by
  have hbase : LayoutSim (text.length * 4 * 4) (text.length * 6) 0
      (layoutInit text) layoutRunInit := by
    refine ⟨rfl, rfl, rfl, rfl, rfl, rfl, rfl, rfl, ?_, ?_⟩ <;>
      simp [layoutInit, layoutRunInit]
  have hlen : emittedCount f text ≤ text.length := emittedCount_le_length f text
  have h := layout_sim_fold f twPt (text.length * 4 * 4) (text.length * 6)
    text 0 (layoutInit text) layoutRunInit hbase (by omega) (by omega)
    (by omega)
  rw [show (0 : Nat) + emittedCount f text = emittedCount f text from by omega]
    at h
  exact h

/-- The trimmed outputs of `Text.update` equal the abstract run's data when
at most 4095 quads are emitted (so the final `vertices[:vtx*4]` trim does
not wrap either). -/
theorem Text.update_run (s : TextState)
    (hE : emittedCount s.font s.text ≤ 4095) :
    (Text.update s).meshVertexCount =
      (layoutRun s.font s.tabWidthPt s.text).vtx ∧
    (Text.update s).meshVertices =
      (layoutRun s.font s.tabWidthPt s.text).verts ∧
    (Text.update s).meshIndices =
      (layoutRun s.font s.tabWidthPt s.text).idxs ∧
    (Text.update s).bounds =
      { Min := (0, (layoutRun s.font s.tabWidthPt s.text).baseline +
          (s.font.Descender : ℚ) * (1 / (s.font.Height : ℚ))),
        Max := ((if (layoutRun s.font s.tabWidthPt s.text).origin >
              (layoutRun s.font s.tabWidthPt s.text).maxX then
            (layoutRun s.font s.tabWidthPt s.text).origin
          else (layoutRun s.font s.tabWidthPt s.text).maxX),
          (s.font.Ascender : ℚ) * (1 / (s.font.Height : ℚ))) } := by
  obtain ⟨ho, hb, hm, hbv, hsv, hbi, hsl, hil, hbw, hbx⟩ :=
    layoutText_sim s.font s.tabWidthPt s.text (by omega)
  refine ⟨?_, ?_, ?_, ?_⟩
  · show (layoutText s.font s.tabWidthPt s.text).vtx = _
    rw [hbv, hsv]
  · show (layoutText s.font s.tabWidthPt s.text).verts.take
        (((layoutText s.font s.tabWidthPt s.text).vtx * 4) % 65536) = _
    rw [hbw, hbv, Nat.mod_eq_of_lt (show 4 * emittedCount s.font s.text * 4 <
      65536 from by omega),
      show 4 * emittedCount s.font s.text * 4 =
        16 * emittedCount s.font s.text from by ring,
      ← hsl, List.take_left]
  · show (layoutText s.font s.tabWidthPt s.text).idxs.take
        ((layoutText s.font s.tabWidthPt s.text).idx) = _
    rw [hbx, hbi, ← hil, List.take_left]
  · show Rectf.mk
        (0, (layoutText s.font s.tabWidthPt s.text).baseline +
          (s.font.Descender : ℚ) * (1 / (s.font.Height : ℚ)))
        ((if (layoutText s.font s.tabWidthPt s.text).origin >
              (layoutText s.font s.tabWidthPt s.text).maxX then
            (layoutText s.font s.tabWidthPt s.text).origin
          else (layoutText s.font s.tabWidthPt s.text).maxX),
          (s.font.Ascender : ℚ) * (1 / (s.font.Height : ℚ))) = _
    rw [ho, hb, hm]

/-- Projection of `Text.update`: the stored vertex count is the walk's
final `vtx`. -/
theorem Text.update_meshVertexCount (s : TextState) :
    (Text.update s).meshVertexCount =
      (layoutText s.font s.tabWidthPt s.text).vtx := rfl

/-- Projection of `Text.update`: the stored vertices are the buffer trimmed
at the (wrapped) `vtx*4` offset. -/
theorem Text.update_meshVertices (s : TextState) :
    (Text.update s).meshVertices =
      (layoutText s.font s.tabWidthPt s.text).verts.take
        (((layoutText s.font s.tabWidthPt s.text).vtx * 4) % 65536) := rfl

/-- Helper for C7: an abstract glyph step with an existing glyph advances
the cursor by the scaled advance width, emits 4 vertices and 6 indices,
and leaves baseline and tracked maximum width unchanged. -/
theorem layoutRunStep_glyph (f : Font) (twPt : ℚ) (st : LayoutRun)
    (r : Char) (c : FontChar) (h1 : r ≠ '\r') (h2 : r ≠ '\n')
    (h3 : r ≠ '\t') (hc : f.Chars r = some c) :
    (layoutRunStep f twPt st r).origin =
      st.origin + (c.Width : ℚ) * (1 / (f.Height : ℚ)) ∧
    (layoutRunStep f twPt st r).baseline = st.baseline ∧
    (layoutRunStep f twPt st r).vtx = st.vtx + 4 ∧
    (layoutRunStep f twPt st r).maxX = st.maxX ∧
    (layoutRunStep f twPt st r).idxs.length = st.idxs.length + 6 := by
  unfold layoutRunStep
  rw [if_neg h1, if_neg h2, if_neg h3, hc]
  exact ⟨rfl, rfl, rfl, rfl, by simp⟩

/-- Helper for C7: the abstract newline step resets the cursor to 0, pushes
the baseline down one scaled line height, folds the cursor into the tracked
maximum width, and emits nothing. -/
theorem layoutRunStep_newline (f : Font) (twPt : ℚ) (st : LayoutRun) :
    layoutRunStep f twPt st '\n' =
      { st with
          maxX := if st.origin > st.maxX then st.origin else st.maxX,
          origin := 0,
          baseline := st.baseline - (f.Height : ℚ) * (1 / (f.Height : ℚ)) } := by
  unfold layoutRunStep
  rw [if_neg (by decide), if_pos rfl]

/-- C7.  Regenerating the text "AB\nC" with a font whose glyphs A, B, C
each have advance width 10 and whose line height is 20 (scale 1/20) emits
3 quads (12 vertices, 18 indices); the cursor is reset to 0 after the
newline; the second line's baseline is -1; and the bounds' maximal x is 1
(the width of "AB"). -/
theorem claim_C7_regenerate_two_line_text
    (f : Font) (cA cB cC : FontChar) (twPt : ℚ) (s : TextState)
    (hH : f.Height = 20)
    (hA : f.Chars 'A' = some cA) (hwA : cA.Width = 10)
    (hB : f.Chars 'B' = some cB) (hwB : cB.Width = 10)
    (hC : f.Chars 'C' = some cC) (hwC : cC.Width = 10)
    (hsf : s.font = f) (hstw : s.tabWidthPt = twPt)
    (hst : s.text = ['A', 'B', '\n', 'C']) :
    (Text.update s).meshVertexCount = 12 ∧
    (Text.update s).meshIndices.length = 18 ∧
    (layoutText f twPt ['A', 'B', '\n']).origin = 0 ∧
    (layoutText f twPt ['A', 'B', '\n', 'C']).baseline = -1 ∧
    (Text.update s).bounds.Max.1 = 1 := by
  subst hsf
  subst hstw
  have hAstep := layoutRunStep_glyph s.font s.tabWidthPt layoutRunInit 'A' cA
    (by decide) (by decide) (by decide) hA
  have hBstep := layoutRunStep_glyph s.font s.tabWidthPt
    (layoutRunStep s.font s.tabWidthPt layoutRunInit 'A') 'B' cB
    (by decide) (by decide) (by decide) hB
  have hfold3 : layoutRun s.font s.tabWidthPt ['A', 'B', '\n'] =
      layoutRunStep s.font s.tabWidthPt
        (layoutRunStep s.font s.tabWidthPt
          (layoutRunStep s.font s.tabWidthPt layoutRunInit 'A') 'B') '\n' :=
    rfl
  have hscale : ((s.font.Height : ℤ) : ℚ) = 20 := by
    rw [hH]
    norm_num
  have horiginB :
      (layoutRunStep s.font s.tabWidthPt
        (layoutRunStep s.font s.tabWidthPt layoutRunInit 'A') 'B').origin =
        1 := by
    rw [hBstep.1, hAstep.1]
    rw [hwA, hwB, hscale]
    show (0 : ℚ) + 10 * (1 / 20) + 10 * (1 / 20) = 1
    norm_num
  have hnl := layoutRunStep_newline s.font s.tabWidthPt
    (layoutRunStep s.font s.tabWidthPt
      (layoutRunStep s.font s.tabWidthPt layoutRunInit 'A') 'B')
  have hmaxXB :
      (layoutRunStep s.font s.tabWidthPt
        (layoutRunStep s.font s.tabWidthPt layoutRunInit 'A') 'B').maxX =
        0 := by
    rw [hBstep.2.2.2.1, hAstep.2.2.2.1]
    rfl
  have hst3 :
      (layoutRun s.font s.tabWidthPt ['A', 'B', '\n']).origin = 0 ∧
      (layoutRun s.font s.tabWidthPt ['A', 'B', '\n']).baseline = -1 ∧
      (layoutRun s.font s.tabWidthPt ['A', 'B', '\n']).maxX = 1 ∧
      (layoutRun s.font s.tabWidthPt ['A', 'B', '\n']).vtx = 8 ∧
      (layoutRun s.font s.tabWidthPt ['A', 'B', '\n']).idxs.length = 12 := by
    rw [hfold3, hnl]
    refine ⟨rfl, ?_, ?_, ?_, ?_⟩
    · show (layoutRunStep s.font s.tabWidthPt
        (layoutRunStep s.font s.tabWidthPt layoutRunInit 'A') 'B').baseline -
          (s.font.Height : ℚ) * (1 / (s.font.Height : ℚ)) = -1
      rw [hBstep.2.1, hAstep.2.1, hscale]
      show (0 : ℚ) - 20 * (1 / 20) = -1
      norm_num
    · show (if _ > _ then _ else _) = 1
      rw [horiginB, hmaxXB]
      norm_num
    · show (layoutRunStep s.font s.tabWidthPt
        (layoutRunStep s.font s.tabWidthPt layoutRunInit 'A') 'B').vtx = 8
      rw [hBstep.2.2.1, hAstep.2.2.1]
      rfl
    · show (layoutRunStep s.font s.tabWidthPt
        (layoutRunStep s.font s.tabWidthPt layoutRunInit 'A') 'B').idxs.length =
        12
      rw [hBstep.2.2.2.2, hAstep.2.2.2.2]
      rfl
  have hCstep := layoutRunStep_glyph s.font s.tabWidthPt
    (layoutRun s.font s.tabWidthPt ['A', 'B', '\n']) 'C' cC
    (by decide) (by decide) (by decide) hC
  have hst4 :
      (layoutRun s.font s.tabWidthPt ['A', 'B', '\n', 'C']).origin = 1 / 2 ∧
      (layoutRun s.font s.tabWidthPt ['A', 'B', '\n', 'C']).baseline = -1 ∧
      (layoutRun s.font s.tabWidthPt ['A', 'B', '\n', 'C']).maxX = 1 ∧
      (layoutRun s.font s.tabWidthPt ['A', 'B', '\n', 'C']).vtx = 12 ∧
      (layoutRun s.font s.tabWidthPt ['A', 'B', '\n', 'C']).idxs.length =
        18 := by
    have hfold4 : layoutRun s.font s.tabWidthPt ['A', 'B', '\n', 'C'] =
        layoutRunStep s.font s.tabWidthPt
          (layoutRun s.font s.tabWidthPt ['A', 'B', '\n']) 'C' := rfl
    rw [hfold4]
    refine ⟨?_, ?_, ?_, ?_, ?_⟩
    · rw [hCstep.1, hst3.1, hwC, hscale]
      norm_num
    · rw [hCstep.2.1, hst3.2.1]
    · rw [hCstep.2.2.2.1, hst3.2.2.1]
    · rw [hCstep.2.2.1, hst3.2.2.2.1]
    · rw [hCstep.2.2.2.2, hst3.2.2.2.2]
  have hE : emittedCount s.font s.text ≤ 4095 :=
    le_trans (emittedCount_le_length _ _) (by rw [hst]; norm_num)
  have hupd := Text.update_run s hE
  have hsim3 := layoutText_sim s.font s.tabWidthPt ['A', 'B', '\n']
    (le_trans (emittedCount_le_length _ _) (by norm_num))
  have hsim4 := layoutText_sim s.font s.tabWidthPt ['A', 'B', '\n', 'C']
    (le_trans (emittedCount_le_length _ _) (by norm_num))
  refine ⟨?_, ?_, ?_, ?_, ?_⟩
  · rw [hupd.1, hst]
    exact hst4.2.2.2.1
  · rw [hupd.2.2.1, hst]
    exact hst4.2.2.2.2
  · rw [hsim3.1]
    exact hst3.1
  · rw [hsim4.2.1]
    exact hst4.2.1
  · rw [hupd.2.2.2]
    show (if (layoutRun s.font s.tabWidthPt s.text).origin >
        (layoutRun s.font s.tabWidthPt s.text).maxX then
      (layoutRun s.font s.tabWidthPt s.text).origin
    else (layoutRun s.font s.tabWidthPt s.text).maxX) = 1
    rw [hst, hst4.1, hst4.2.2.1]
    norm_num

/-- Witness for C7: the concrete font `F1` (A, B, C with advance 10, line
height 20) and the canonical text state carrying "AB\nC". -/
theorem claim_C7_witness :
    (Text.update
      { font := F1, tabWidth := 4, tabWidthPt := 40,
        text := ['A', 'B', '\n', 'C'], bounds := ⟨(0, 0), (0, 0)⟩,
        meshVertexCount := 0, meshVertices := [], meshIndices := [],
        color := Color.white,
        materialColor := Color.white }).meshVertexCount = 12 ∧
    (layoutText F1 40 ['A', 'B', '\n', 'C']).baseline = -1 :=
  by
    have h := claim_C7_regenerate_two_line_text F1 ⟨10, (0, 10), (0, 0), (8, 10)⟩
      ⟨10, (0, 10), (0, 0), (8, 10)⟩ ⟨10, (0, 10), (0, 0), (8, 10)⟩ 40
      { font := F1, tabWidth := 4, tabWidthPt := 40,
        text := ['A', 'B', '\n', 'C'], bounds := ⟨(0, 0), (0, 0)⟩,
        meshVertexCount := 0, meshVertices := [], meshIndices := [],
        color := Color.white, materialColor := Color.white }
      rfl (by decide) rfl (by decide) rfl (by decide) rfl rfl rfl rfl
    exact ⟨h.1, h.2.2.2.1⟩

/-- A text state carrying a text whose 16384 emitted quads wrap the uint16
vertex counter of the walk. -/
def wrapState : TextState :=
  { font := F1, tabWidth := 4, tabWidthPt := 40,
    text := 'x' :: List.replicate 16384 'A', bounds := ⟨(0, 0), (0, 0)⟩,
    meshVertexCount := 0, meshVertices := [], meshIndices := [],
    color := Color.white, materialColor := Color.white }

/-- C8 counterexample.  The claim's "one quad fewer than the printable
code-point count" fails for long texts: the text "x" (no glyph in `F1`)
followed by 16384 copies of "A" has 16385 printable code points, so the
claim demands 16384 quads (65536 vertices); but the source's `vtx` counter
is a uint16, so after 16384 emitted quads it has wrapped to 0 and the
regenerated mesh reports vertex count 0 with an empty vertex array. -/
theorem claim_C8_counterexample :
    printableCount ('x' :: List.replicate 16384 'A') = 16385 ∧
    (Text.update wrapState).meshVertexCount = 0 ∧
    (Text.update wrapState).meshVertices = [] ∧
    (0 : Nat) ≠ 4 * (16385 - 1) := by
  have hemitA : emittedCount F1 (List.replicate 16384 'A') = 16384 := by
    unfold emittedCount
    rw [List.filter_replicate, if_pos (by decide), List.length_replicate]
  have hemitX : emittedCount F1 ('x' :: List.replicate 16384 'A') = 16384 := by
    rw [emittedCount_cons,
      show (printableRune 'x' && (F1.Chars 'x').isSome) = false from by decide,
      hemitA]
    norm_num
  have hinit : (layoutInit ('x' :: List.replicate 16384 'A')).vtx = 0 := rfl
  have hvtx : (layoutText F1 40 ('x' :: List.replicate 16384 'A')).vtx = 0 := by
    unfold layoutText
    rw [layout_foldl_vtx F1 40 _ _ (by rw [hinit]; omega), hemitX, hinit]
  refine ⟨?_, ?_, ?_, by norm_num⟩
  · unfold printableCount
    rw [List.filter_cons,
      show printableRune 'x' = true from by decide,
      List.filter_replicate,
      show printableRune 'A' = true from by decide,
      if_pos rfl, if_pos rfl, List.length_cons, List.length_replicate]
  · rw [Text.update_meshVertexCount,
      show wrapState.font = F1 from rfl,
      show wrapState.tabWidthPt = 40 from rfl,
      show wrapState.text = 'x' :: List.replicate 16384 'A' from rfl]
    exact hvtx
  · rw [Text.update_meshVertices,
      show wrapState.font = F1 from rfl,
      show wrapState.tabWidthPt = 40 from rfl,
      show wrapState.text = 'x' :: List.replicate 16384 'A' from rfl,
      hvtx, show (0 * 4) % 65536 = 0 from rfl, List.take_zero]

/-- C8 amended.  A printable code point with no glyph in the font is
skipped: the abstract walk over the text equals the walk with the code
point removed (no cursor advance, later quads at the same positions), and
the regenerated mesh data and bounds agree with those of the text with the
code point removed; when every other printable code point has a glyph and
the text has at most 4096 printable code points (at most 4095 emitted
quads, below the uint16 wrap of the source's vertex counter and buffer
offsets), the regenerated vertex count is 4 times one less than the
printable code-point count. -/
theorem claim_C8_amended_missing_glyph_skipped
    (f : Font) (twPt : ℚ) (pre post : List Char) (c : Char)
    (s1 s2 : TextState)
    (hcp : printableRune c = true)
    (hmiss : f.Chars c = none)
    (hall : ∀ r ∈ pre ++ post, printableRune r = true →
      (f.Chars r).isSome = true)
    (hbound : printableCount (pre ++ c :: post) ≤ 4096)
    (hs1f : s1.font = f) (hs1w : s1.tabWidthPt = twPt)
    (hs1t : s1.text = pre ++ c :: post)
    (hs2f : s2.font = f) (hs2w : s2.tabWidthPt = twPt)
    (hs2t : s2.text = pre ++ post) :
    layoutRun f twPt (pre ++ c :: post) = layoutRun f twPt (pre ++ post) ∧
    (Text.update s1).meshVertexCount = (Text.update s2).meshVertexCount ∧
    (Text.update s1).meshVertices = (Text.update s2).meshVertices ∧
    (Text.update s1).meshIndices = (Text.update s2).meshIndices ∧
    (Text.update s1).bounds = (Text.update s2).bounds ∧
    (Text.update s1).meshVertexCount =
      4 * (printableCount (pre ++ c :: post) - 1) := by
  have heq : layoutRun f twPt (pre ++ c :: post) =
      layoutRun f twPt (pre ++ post) := by
    unfold layoutRun
    rw [List.foldl_append, List.foldl_cons,
      layoutRunStep_missing f twPt c hcp hmiss, ← List.foldl_append]
  have hemit : emittedCount f (pre ++ post) = printableCount (pre ++ post) := by
    unfold emittedCount printableCount
    congr 1
    apply List.filter_congr
    intro r hr
    by_cases hp : printableRune r = true
    · rw [hp, hall r hr hp]
      rfl
    · rw [Bool.eq_false_iff.mpr hp]
      rfl
  have hskip : emittedCount f (pre ++ c :: post) =
      emittedCount f (pre ++ post) := by
    unfold emittedCount
    rw [List.filter_append, List.filter_append, List.filter_cons]
    simp [hmiss]
  have hpc : printableCount (pre ++ c :: post) =
      printableCount (pre ++ post) + 1 := by
    unfold printableCount
    rw [List.filter_append, List.filter_append, List.filter_cons, hcp]
    simp
    omega
  have hE2 : emittedCount f (pre ++ post) ≤ 4095 := by
    rw [hemit]
    omega
  have hE1 : emittedCount f (pre ++ c :: post) ≤ 4095 := by
    rw [hskip]
    exact hE2
  have hupd1 := Text.update_run s1 (by rw [hs1f, hs1t]; exact hE1)
  have hupd2 := Text.update_run s2 (by rw [hs2f, hs2t]; exact hE2)
  rw [hs1f, hs1w, hs1t] at hupd1
  rw [hs2f, hs2w, hs2t] at hupd2
  refine ⟨heq, ?_, ?_, ?_, ?_, ?_⟩
  · rw [hupd1.1, hupd2.1, heq]
  · rw [hupd1.2.1, hupd2.2.1, heq]
  · rw [hupd1.2.2.1, hupd2.2.2.1, heq]
  · rw [hupd1.2.2.2, hupd2.2.2.2, heq]
  · rw [hupd1.1, heq]
    unfold layoutRun
    rw [layoutRun_foldl_vtx]
    show layoutRunInit.vtx + 4 * emittedCount f (pre ++ post) = _
    rw [show layoutRunInit.vtx = 0 from rfl, hemit, hpc]
    omega

/-- Witness for C8 amended: the font `F1` misses a glyph for x; laying out
"AxB" equals laying out "AB", and the regenerated mesh has 8 vertices —
2 quads for the 3 printable code points. -/
theorem claim_C8_amended_witness :
    layoutRun F1 40 (['A'] ++ 'x' :: ['B']) =
      layoutRun F1 40 (['A'] ++ ['B']) ∧
    (Text.update
      { font := F1, tabWidth := 4, tabWidthPt := 40,
        text := ['A'] ++ 'x' :: ['B'], bounds := ⟨(0, 0), (0, 0)⟩,
        meshVertexCount := 0, meshVertices := [], meshIndices := [],
        color := Color.white,
        materialColor := Color.white }).meshVertexCount =
      4 * (printableCount (['A'] ++ 'x' :: ['B']) - 1) := by
  have h := claim_C8_amended_missing_glyph_skipped F1 40 ['A'] ['B'] 'x'
    { font := F1, tabWidth := 4, tabWidthPt := 40,
      text := ['A'] ++ 'x' :: ['B'], bounds := ⟨(0, 0), (0, 0)⟩,
      meshVertexCount := 0, meshVertices := [], meshIndices := [],
      color := Color.white, materialColor := Color.white }
    { font := F1, tabWidth := 4, tabWidthPt := 40,
      text := ['A'] ++ ['B'], bounds := ⟨(0, 0), (0, 0)⟩,
      meshVertexCount := 0, meshVertices := [], meshIndices := [],
      color := Color.white, materialColor := Color.white }
    (by decide) (by decide) (by decide) (by decide)
    rfl rfl rfl rfl rfl rfl
  exact ⟨h.1, h.2.2.2.2.2⟩

/-- Helper for C6: the abstract tab step advances the cursor by the scaled
cached tab point width and emits nothing. -/
theorem layoutRunStep_tab (f : Font) (twPt : ℚ) (st : LayoutRun) :
    layoutRunStep f twPt st '\t' =
      { st with origin := st.origin + twPt * (1 / (f.Height : ℚ)) } := by
  unfold layoutRunStep
  rw [if_neg (by decide), if_neg (by decide), if_pos rfl]

/-- Helper for C6: the vertex data emitted for a glyph, spelled out. -/
theorem layoutRunStep_glyph_verts (f : Font) (twPt : ℚ) (st : LayoutRun)
    (r : Char) (c : FontChar) (h1 : r ≠ '\r') (h2 : r ≠ '\n') (h3 : r ≠ '\t')
    (hc : f.Chars r = some c) :
    (layoutRunStep f twPt st r).verts =
      st.verts ++
        [st.origin + (c.Offset.1 : ℚ) * (1 / (f.Height : ℚ)),
         st.baseline + (c.Offset.2 : ℚ) * (1 / (f.Height : ℚ)) -
           (c.Size.2 : ℚ) * (1 / (f.Height : ℚ)),
         (f.texCoord r).1.1, (f.texCoord r).2.2,
         st.origin + (c.Offset.1 : ℚ) * (1 / (f.Height : ℚ)) +
           (c.Size.1 : ℚ) * (1 / (f.Height : ℚ)),
         st.baseline + (c.Offset.2 : ℚ) * (1 / (f.Height : ℚ)) -
           (c.Size.2 : ℚ) * (1 / (f.Height : ℚ)),
         (f.texCoord r).2.1, (f.texCoord r).2.2,
         st.origin + (c.Offset.1 : ℚ) * (1 / (f.Height : ℚ)) +
           (c.Size.1 : ℚ) * (1 / (f.Height : ℚ)),
         st.baseline + (c.Offset.2 : ℚ) * (1 / (f.Height : ℚ)),
         (f.texCoord r).2.1, (f.texCoord r).1.2,
         st.origin + (c.Offset.1 : ℚ) * (1 / (f.Height : ℚ)),
         st.baseline + (c.Offset.2 : ℚ) * (1 / (f.Height : ℚ)),
         (f.texCoord r).1.1, (f.texCoord r).1.2] := by
  unfold layoutRunStep
  rw [if_neg h1, if_neg h2, if_neg h3, hc]

/-- C6.  `SetFont` does not refresh the cached `tabWidthPt`, so the
regenerated geometry is not a pure function of (font, text, tabWidth):
starting from `NewText` with font `F1` (average glyph width 10) and text
"\tA", then switching to `F2` (average glyph width 20) yields a state with
the same font, text and tab width as `NewText` with `F2` directly — but
different mesh vertices, because the tab advanced the cursor by the stale
`4 * 10` points instead of `4 * 20`. -/
theorem claim_C6_setfont_keeps_stale_tab_width :
    (Text.setFont (Text.newText F1 ['\t', 'A']) F2).font =
      (Text.newText F2 ['\t', 'A']).font ∧
    (Text.setFont (Text.newText F1 ['\t', 'A']) F2).text =
      (Text.newText F2 ['\t', 'A']).text ∧
    (Text.setFont (Text.newText F1 ['\t', 'A']) F2).tabWidth =
      (Text.newText F2 ['\t', 'A']).tabWidth ∧
    (Text.setFont (Text.newText F1 ['\t', 'A']) F2).tabWidthPt = 40 ∧
    (Text.newText F2 ['\t', 'A']).tabWidthPt = 80 ∧
    (Text.setFont (Text.newText F1 ['\t', 'A']) F2).meshVertices ≠
      (Text.newText F2 ['\t', 'A']).meshVertices := by
  have h40 : (4 : ℚ) * F1.avgWidth = 40 := by norm_num [F1]
  have h80 : (4 : ℚ) * F2.avgWidth = 80 := by norm_num [F2, F1]
  have hverts : ∀ w : ℚ, (layoutRun F2 w ['\t', 'A']).verts =
      [w * (1 / 20), 0, 0, 1, w * (1 / 20) + 2 / 5, 0, 1, 1,
       w * (1 / 20) + 2 / 5, 1 / 2, 1, 0, w * (1 / 20), 1 / 2, 0, 0] := by
    intro w
    show (layoutRunStep F2 w
      (layoutRunStep F2 w layoutRunInit '\t') 'A').verts = _
    rw [layoutRunStep_tab]
    rw [layoutRunStep_glyph_verts F2 w _ 'A' ⟨10, (0, 10), (0, 0), (8, 10)⟩
      (by decide) (by decide) (by decide) (by decide)]
    show ([] : List ℚ) ++ _ = _
    rw [List.nil_append]
    norm_num [F2, F1, layoutRunInit]
  have hEb : emittedCount F2 ['\t', 'A'] ≤ 4095 :=
    le_trans (emittedCount_le_length _ _) (by norm_num)
  have h1 := Text.update_run
    { (Text.newText F1 ['\t', 'A']) with font := F2 } hEb
  have h2 := Text.update_run
    { font := F2, tabWidth := 4, tabWidthPt := 4 * F2.avgWidth,
      text := ['\t', 'A'], bounds := ⟨(0, 0), (0, 0)⟩,
      meshVertexCount := 0, meshVertices := [], meshIndices := [],
      color := Color.white, materialColor := Color.white } hEb
  have hv1 : (Text.setFont (Text.newText F1 ['\t', 'A']) F2).meshVertices =
      (layoutRun F2 ((4 : ℚ) * F1.avgWidth) ['\t', 'A']).verts := h1.2.1
  have hv2 : (Text.newText F2 ['\t', 'A']).meshVertices =
      (layoutRun F2 ((4 : ℚ) * F2.avgWidth) ['\t', 'A']).verts := h2.2.1
  refine ⟨rfl, rfl, rfl, ?_, ?_, ?_⟩
  · show (4 : ℚ) * F1.avgWidth = 40
    exact h40
  · show (4 : ℚ) * F2.avgWidth = 80
    exact h80
  · rw [hv1, hv2, h40, h80, hverts 40, hverts 80]
    intro hcontra
    have hhead := List.head_eq_of_cons_eq hcontra
    norm_num at hhead

/-- C10.  `SetColor` changes only the stored color and the material's color
uniform: text, font, tab width, bounds and the owned mesh geometry are all
untouched, and no regeneration happens. -/
theorem claim_C10_setcolor_touches_only_color (s : TextState) (c : Color) :
    (Text.setColor s c).text = s.text ∧
    (Text.setColor s c).font = s.font ∧
    (Text.setColor s c).tabWidth = s.tabWidth ∧
    (Text.setColor s c).tabWidthPt = s.tabWidthPt ∧
    (Text.setColor s c).bounds = s.bounds ∧
    (Text.setColor s c).meshVertexCount = s.meshVertexCount ∧
    (Text.setColor s c).meshVertices = s.meshVertices ∧
    (Text.setColor s c).meshIndices = s.meshIndices ∧
    (Text.setColor s c).color = c ∧
    (Text.setColor s c).materialColor = c :=
  ⟨rfl, rfl, rfl, rfl, rfl, rfl, rfl, rfl, rfl, rfl⟩

/-- Witness for C5 amended: a valid 2-vertex LineStrip geometry. -/
theorem claim_C5_amended_witness :
    assertValidGeometry 2 [0, 1] none .LINE_STRIP ["position"] = none ∧
    primitiveTypeCheck .LINE_STRIP 2 = none :=
  ⟨by decide,
   by
    have h := claim_C5_amended_primitive_type_validation 2 [0, 1] none
      .LINE_STRIP ["position"] 2 (by decide)
    simpa using h.1⟩
